import Mathlib

/-!
NC FTTX portal.

A shallow embedding of `application/main.go`: the municipality dataset, the
four HTTP handlers and the port selection of `main`.

Conventions of the embedding.

* Package-level variables (`municipalities`, `templates`) and the clock read by
  `time.Now()` are passed explicitly in a `Ctx`; a handler is a function from
  the context, the response writer it is given and the request to the response
  writer it leaves behind.
* `http.ResponseWriter` is a record of the header map, the committed status
  line and the chunks written so far.  The first write commits status 200 when
  no status was written before, and a status written later is ignored, as
  documented for `net/http`.
* `encoding/json` is kept at the level of JSON values: a struct is an object
  keyed by its `json` tags, a slice is an array, a `time.Time` is a timestamp
  value.  An object is read by key; the order in which the encoder lays the
  keys of a map out on the wire is not part of the model.
* The template set is an external collaborator: a function from the template
  name and the data to the writes it performs and the error it returns.
-/

namespace NCFttx

/-! ## Data model -/

/-- Municipality record (`type Municipality struct`).  The field `Type` of the
source is spelled `Type_`, the bare word being reserved. -/
structure Municipality where
  ID : Int
  Name : String
  Type_ : String
  PermitExpiration : String
  ContactEmail : String
  ContactPhone : String
  TurnaroundDays : Int
  PermitFee : String
  Requirements : String
  GISLink : String
  PermitPortalLink : String
  deriving DecidableEq, Repr

/-- The sample data (`var municipalities = []Municipality{...}`). -/
def municipalities : List Municipality :=
  [ { ID := 1
      Name := "Raleigh"
      Type_ := "City"
      PermitExpiration := "6 months"
      ContactEmail := "permits@raleighnc.gov"
      ContactPhone := "(919) 996-3000"
      TurnaroundDays := 14
      PermitFee := "$150.00"
      Requirements := "Right-of-way permit required for all FTTX installations. Traffic control plan mandatory for major thoroughfares."
      GISLink := "https://maps.raleighnc.gov/iMAPS/"
      PermitPortalLink := "https://raleighnc.gov/permits-and-development" },
    { ID := 2
      Name := "Charlotte"
      Type_ := "City"
      PermitExpiration := "6 months"
      ContactEmail := "rowpermit@charlottenc.gov"
      ContactPhone := "(704) 336-2891"
      TurnaroundDays := 21
      PermitFee := "$200.00"
      Requirements := "Comprehensive utility coordination required. Environmental impact assessment for sensitive areas."
      GISLink := "https://maps.charlotte.gov/"
      PermitPortalLink := "https://charlottenc.gov/Transportation/Programs/Pages/Right-of-Way-Permitting.aspx" },
    { ID := 3
      Name := "Durham"
      Type_ := "City"
      PermitExpiration := "3 months"
      ContactEmail := "publicworks@durhamnc.gov"
      ContactPhone := "(919) 560-4326"
      TurnaroundDays := 10
      PermitFee := "$125.00"
      Requirements := "Standard ROW application with fiber route plans. Coordination with Duke Energy required."
      GISLink := "https://durhamnc.maps.arcgis.com/apps/webappviewer/index.html"
      PermitPortalLink := "https://durhamnc.gov/1329/Right-of-Way-Permits" },
    { ID := 4
      Name := "Wake County"
      Type_ := "County"
      PermitExpiration := "12 months"
      ContactEmail := "row@wakegov.com"
      ContactPhone := "(919) 856-6100"
      TurnaroundDays := 18
      PermitFee := "$175.00"
      Requirements := "County-wide coordination required. Special provisions for unincorporated areas."
      GISLink := "https://maps.wakegov.com/"
      PermitPortalLink := "https://www.wakegov.com/departments-government/public-works/right-way-permits" } ]

/-! ## Collaborators: clock, JSON values, headers, response writer, templates -/

/-- An instant as returned by `time.Now().UTC()`, in nanoseconds since the
Unix epoch. -/
structure Time where
  unixNano : Int
  deriving DecidableEq, Repr

/-- JSON values as produced by `encoding/json` from the values this program
encodes. -/
inductive JSON where
  | num : Int → JSON
  | str : String → JSON
  | time : Time → JSON
  | arr : List JSON → JSON
  | obj : List (String × JSON) → JSON

/-- The value under a key of a JSON object. -/
def JSON.get? : JSON → String → Option JSON
  | .obj kvs, k => kvs.lookup k
  | _, _ => none

/-- The elements of a JSON array. -/
def JSON.elems? : JSON → Option (List JSON)
  | .arr xs => some xs
  | _ => none

/-- A JSON object without the given key. -/
def JSON.erase : JSON → String → JSON
  | .obj kvs, k => .obj (kvs.filter (fun kv => kv.1 != k))
  | v, _ => v

/-- Encoding of a `Municipality`, field by field under its `json` tag. -/
def Municipality.toJSON (m : Municipality) : JSON :=
  .obj
    [ ("id", .num m.ID),
      ("name", .str m.Name),
      ("type", .str m.Type_),
      ("permit_expiration", .str m.PermitExpiration),
      ("contact_email", .str m.ContactEmail),
      ("contact_phone", .str m.ContactPhone),
      ("turnaround_days", .num m.TurnaroundDays),
      ("permit_fee", .str m.PermitFee),
      ("requirements", .str m.Requirements),
      ("gis_link", .str m.GISLink),
      ("permit_portal_link", .str m.PermitPortalLink) ]

/-- The header map of a response (`http.Header`), as an association list. -/
structure Header where
  entries : List (String × String)
  deriving DecidableEq, Repr

/-- `Header.Del`: remove every entry of the key. -/
def Header.Del (h : Header) (k : String) : Header :=
  ⟨h.entries.filter (fun kv => kv.1 != k)⟩

/-- `Header.Set`: replace the entries of the key by the single value. -/
def Header.Set (h : Header) (k v : String) : Header :=
  ⟨(h.Del k).entries ++ [(k, v)]⟩

/-- `Header.Get`: the value of the key, the empty string when absent. -/
def Header.Get (h : Header) (k : String) : String :=
  (h.entries.lookup k).getD ""

/-- One write to the response body: raw text, or a JSON value as written by
`Encoder.Encode` (its encoding followed by a line feed). -/
inductive Chunk where
  | text : String → Chunk
  | json : JSON → Chunk

/-- The state of an `http.ResponseWriter`: the header map the handler edits,
the status once committed, the headers that were committed with it, and the
body written so far. -/
structure ResponseWriter where
  header : Header
  status : Option Nat
  sent : Header
  body : List Chunk

/-- The writer the server hands to a handler for a new request. -/
def ResponseWriter.new : ResponseWriter :=
  { header := ⟨[]⟩, status := none, sent := ⟨[]⟩, body := [] }

/-- `w.Header().Set(k, v)`. -/
def ResponseWriter.SetHeader (w : ResponseWriter) (k v : String) : ResponseWriter :=
  { w with header := w.header.Set k v }

/-- `w.WriteHeader(code)`: commits the status and the header map; a second
call changes nothing. -/
def ResponseWriter.WriteHeader (w : ResponseWriter) (code : Nat) : ResponseWriter :=
  match w.status with
  | some _ => w
  | none => { w with status := some code, sent := w.header }

/-- A write of one chunk: commits status 200 first if no status was written. -/
def ResponseWriter.emit (w : ResponseWriter) (c : Chunk) : ResponseWriter :=
  let w1 := w.WriteHeader 200
  { w1 with body := w1.body ++ [c] }

/-- `w.Write([]byte(s))`, also what `fmt.Fprintf(w, ...)` does with its
formatted text. -/
def ResponseWriter.Write (w : ResponseWriter) (s : String) : ResponseWriter :=
  w.emit (.text s)

/-- `json.NewEncoder(w).Encode(v)`. -/
def ResponseWriter.Encode (w : ResponseWriter) (v : JSON) : ResponseWriter :=
  w.emit (.json v)

/-- `http.StatusInternalServerError`. -/
def StatusInternalServerError : Nat := 500

/-- `http.Error(w, msg, code)`: sets the plain-text headers, writes the status
and prints the message followed by a line feed (`fmt.Fprintln`). -/
def httpError (w : ResponseWriter) (msg : String) (code : Nat) : ResponseWriter :=
  let h := w.header.Del "Content-Length"
  let h := h.Set "Content-Type" "text/plain; charset=utf-8"
  let h := h.Set "X-Content-Type-Options" "nosniff"
  let w1 : ResponseWriter := { w with header := h }
  (w1.WriteHeader code).Write (msg ++ "\n")

/-- The text of the raw-text chunks of a body, concatenated. -/
def bodyText : List Chunk → String
  | [] => ""
  | .text s :: cs => s ++ bodyText cs
  | .json _ :: cs => bodyText cs

/-- The JSON values encoded into a body, in order. -/
def bodyJSON : List Chunk → List JSON
  | [] => []
  | .text _ :: cs => bodyJSON cs
  | .json v :: cs => v :: bodyJSON cs

/-- The anonymous struct that `homeHandler` gives to the template. -/
structure HomeData where
  Title : String
  Municipalities : List Municipality
  TotalCount : Int
  deriving DecidableEq, Repr

/-- What one template execution does: the writes it performs on the response
writer, in order, and the error it returns (`none` for `nil`). -/
structure Rendering where
  writes : List String
  err : Option String

/-- The loaded template set (`*template.Template`), seen through
`ExecuteTemplate(w, name, data)`. -/
structure Template where
  ExecuteTemplate : String → HomeData → Rendering

/-- An incoming request (`*http.Request`), reduced to what a handler could
read from it. -/
structure Request where
  Method : String
  Path : String
  RawQuery : String
  Headers : List (String × String)
  Body : String
  deriving DecidableEq, Repr

/-- What a handler finds around it when it runs: the two package-level
variables and the current reading of the clock. -/
structure Ctx where
  municipalities : List Municipality
  templates : Template
  now : Time

/-- The context of a running process: the dataset is the literal of the
source, the templates are those loaded by `main`. -/
def Ctx.boot (t : Template) (now : Time) : Ctx :=
  { municipalities := NCFttx.municipalities, templates := t, now := now }

/-! ## Handlers -/

/-- The value of the local variable `data` of `homeHandler`. -/
def homeData (c : Ctx) : HomeData :=
  { Title := "NC FTTX Permitting Portal"
    Municipalities := c.municipalities
    TotalCount := c.municipalities.length }

/-- The writes of a template execution applied to the response writer. -/
def ResponseWriter.render (w : ResponseWriter) (r : Rendering) : ResponseWriter :=
  r.writes.foldl ResponseWriter.Write w

/-- Handler of `/` (`func homeHandler`). -/
def homeHandler (c : Ctx) (w : ResponseWriter) (_r : Request) : ResponseWriter :=
  let data := homeData c
  let res := c.templates.ExecuteTemplate "index.html" data
  let w1 := w.render res
  match res.err with
  | some e => httpError w1 e StatusInternalServerError
  | none => w1

/-- Handler of `/api/municipalities` (`func municipalitiesAPIHandler`). -/
def municipalitiesAPIHandler (c : Ctx) (w : ResponseWriter) (_r : Request) : ResponseWriter :=
  let w1 := w.SetHeader "Content-Type" "application/json"
  w1.Encode
    (.obj
      [ ("municipalities", .arr (c.municipalities.map Municipality.toJSON)),
        ("count", .num c.municipalities.length),
        ("timestamp", .time c.now) ])

/-- Handler of `/health` (`func healthHandler`). -/
def healthHandler (c : Ctx) (w : ResponseWriter) (_r : Request) : ResponseWriter :=
  let w1 := w.SetHeader "Content-Type" "application/json"
  w1.Encode
    (.obj
      [ ("status", .str "healthy"),
        ("service", .str "nc-fttx-portal"),
        ("version", .str "1.0.0"),
        ("timestamp", .time c.now) ])

/-- Formatting of an `int` by the verb `%d`. -/
def fmtInt (n : Int) : String :=
  toString n

/-- Handler of `/metrics` (`func metricsHandler`). -/
def metricsHandler (c : Ctx) (w : ResponseWriter) (_r : Request) : ResponseWriter :=
  let w := w.SetHeader "Content-Type" "text/plain"
  let w := w.Write "# HELP nc_fttx_municipalities_total Total number of municipalities\n"
  let w := w.Write "# TYPE nc_fttx_municipalities_total gauge\n"
  let w := w.Write ("nc_fttx_municipalities_total " ++ fmtInt c.municipalities.length ++ "\n")
  let w := w.Write "# HELP nc_fttx_http_requests_total Total HTTP requests\n"
  let w := w.Write "# TYPE nc_fttx_http_requests_total counter\n"
  w.Write "nc_fttx_http_requests_total\x7bmethod=\"GET\",endpoint=\"/\"\x7d 1\n"

/-! ## Port selection in `main` -/

/-- The process environment: the value of a variable, `none` when unset. -/
abbrev Env := String → Option String

/-- `os.Getenv`: the value of the variable, the empty string when unset. -/
def Getenv (env : Env) (key : String) : String :=
  (env key).getD ""

/-- The value of the local variable `port` of `main` when the listener is
started. -/
def port (env : Env) : String :=
  let port := Getenv env "PORT"
  if port = "" then "8080" else port

/-- The address given to `http.ListenAndServe`. -/
def listenAddr (env : Env) : String :=
  ":" ++ port env

/-! ## Vocabulary of the statements -/

/-- A chunk whose JSON object has lost the given key; raw text is kept. -/
def Chunk.erase : Chunk → String → Chunk
  | .json v, k => .json (v.erase k)
  | .text s, _ => .text s

/-- A response in which every encoded JSON object has lost the given key. -/
def ResponseWriter.eraseKey (w : ResponseWriter) (k : String) : ResponseWriter :=
  { w with body := w.body.map (fun c => c.erase k) }

/-- The exposition format as the specification words it: a metric is a help
comment line, a type comment line and a sample line that starts with the name
of the metric, each ended by a line feed. -/
def metricLines (name help kind labels value : String) : List String :=
  [ "# HELP " ++ name ++ " " ++ help ++ "\n",
    "# TYPE " ++ name ++ " " ++ kind ++ "\n",
    name ++ labels ++ " " ++ value ++ "\n" ]

/-- Splitting of characters at line feeds, with the characters of the current
line accumulated in reverse; a last line without line feed is kept. -/
def linesAux : List Char → List Char → List String
  | [], acc => if acc = [] then [] else [String.mk acc.reverse]
  | ch :: cs, acc =>
    if ch = '\n' then String.mk acc.reverse :: linesAux cs [] else linesAux cs (ch :: acc)

/-- The lines of a text, without their line feeds. -/
def linesOf (s : String) : List String :=
  linesAux s.data []

/-- A request used to instantiate statements: `GET /`. -/
def getRoot : Request :=
  { Method := "GET", Path := "/", RawQuery := "", Headers := [], Body := "" }

/-- A request that differs from `getRoot` in every component. -/
def postOther : Request :=
  { Method := "POST"
    Path := "/api/municipalities"
    RawQuery := "id=3"
    Headers := [("Accept", "text/html")]
    Body := "x" }

/-- A template set whose execution fails at once with the error `boom`,
before any output. -/
def failingTemplate : Template :=
  ⟨fun _ _ => { writes := [], err := some "boom" }⟩

/-- A template set whose execution writes one piece of output and succeeds. -/
def workingTemplate : Template :=
  ⟨fun _ d => { writes := ["<h1>" ++ d.Title ++ "</h1>"], err := none }⟩

/-- A template set whose execution fails with `boom` after it has written a
first piece of output. -/
def lateFailingTemplate : Template :=
  ⟨fun _ _ => { writes := ["<h1>"], err := some "boom" }⟩

/-- A page template that ranges over the records it is given and writes the
rendering `f` of each, one after the other (`range .Municipalities`). -/
def rangeTemplate (f : Municipality → String) : Template :=
  ⟨fun _ d => { writes := d.Municipalities.map f, err := none }⟩

/-- An environment in which `PORT` is set to `3000` and nothing else is. -/
def envPort3000 : Env :=
  fun k => if k = "PORT" then some "3000" else none

/-- An environment with no variable set. -/
def envEmpty : Env :=
  fun _ => none

/-! ## The dataset -/

/-- The JSON encoding of a record determines the record. -/
theorem Municipality.toJSON_injective :
    Function.Injective Municipality.toJSON := by
  intro a b h
  cases a
  cases b
  simp only [Municipality.toJSON, JSON.obj.injEq, List.cons.injEq, Prod.mk.injEq,
    JSON.num.injEq, JSON.str.injEq, true_and, and_true] at h
  obtain ⟨h1, h2, h3, h4, h5, h6, h7, h8, h9, h10, h11⟩ := h
  subst h1 h2 h3 h4 h5 h6 h7 h8 h9 h10 h11
  rfl

/-- The identifiers of the dataset, in order, have no repetition. -/
theorem municipalities_ids_nodup :
    (municipalities.map Municipality.ID).Nodup := by
  decide

/-- The dataset of the source has four records. -/
theorem municipalities_length : municipalities.length = 4 := rfl

/-- C3: any two distinct positions of the dataset hold records with distinct
identifiers. -/
theorem municipalities_id_unique (i j : Nat) (hi : i < municipalities.length)
    (hj : j < municipalities.length) (hij : i ≠ j) :
    municipalities[i].ID ≠ municipalities[j].ID := by
  intro h
  apply hij
  have hn := municipalities_ids_nodup
  have hi2 : i < (municipalities.map Municipality.ID).length := by simpa using hi
  have hj2 : j < (municipalities.map Municipality.ID).length := by simpa using hj
  have key : (municipalities.map Municipality.ID)[i] = (municipalities.map Municipality.ID)[j] := by
    simpa using h
  exact (List.Nodup.getElem_inj_iff hn).mp key

/-- Witness of C3 at positions 0 and 1: Raleigh and Charlotte. -/
theorem municipalities_id_unique_witness :
    (0 : Nat) < municipalities.length ∧ (1 : Nat) < municipalities.length ∧ (0 : Nat) ≠ 1 ∧
      (municipalities.get ⟨0, by decide⟩).ID ≠ (municipalities.get ⟨1, by decide⟩).ID :=
  ⟨by decide, by decide, by decide,
    municipalities_id_unique 0 1 (by decide) (by decide) (by decide)⟩

/-! ## The response writer -/

/-- A write appends its chunk to the body. -/
theorem ResponseWriter.emit_body (w : ResponseWriter) (c : Chunk) :
    (w.emit c).body = w.body ++ [c] := by
  unfold ResponseWriter.emit ResponseWriter.WriteHeader
  cases h : w.status <;> simp

/-- A write commits status 200 unless a status was committed before. -/
theorem ResponseWriter.emit_status (w : ResponseWriter) (c : Chunk) :
    (w.emit c).status = some (w.status.getD 200) := by
  unfold ResponseWriter.emit ResponseWriter.WriteHeader
  cases h : w.status <;> simp [h]

/-- The writes of a template execution are appended to the body in order. -/
theorem ResponseWriter.render_body (res : Rendering) (w : ResponseWriter) :
    (w.render res).body = w.body ++ res.writes.map Chunk.text := by
  unfold ResponseWriter.render
  generalize res.writes = ws
  induction ws generalizing w with
  | nil => simp
  | cons x xs ih =>
    rw [List.foldl_cons, ih, ResponseWriter.Write, ResponseWriter.emit_body]
    simp

/-- A template execution that writes nothing leaves the writer as it was. -/
theorem ResponseWriter.render_nil (w : ResponseWriter) (e : Option String) :
    w.render { writes := [], err := e } = w := rfl

/-- The status after the writes of a template execution: the one committed
before, else 200 if anything was written, else still none. -/
theorem ResponseWriter.render_status (res : Rendering) (w : ResponseWriter) :
    (w.render res).status =
      match w.status with
      | some s => some s
      | none => if res.writes = [] then none else some 200 := by
  unfold ResponseWriter.render
  generalize res.writes = ws
  induction ws generalizing w with
  | nil => cases h : w.status <;> simp [h]
  | cons x xs ih =>
    rw [List.foldl_cons, ih, ResponseWriter.Write, ResponseWriter.emit_status]
    cases h : w.status <;> simp

/-! ## The JSON API -/

/-- C1: the object that `municipalitiesAPIHandler` encodes holds under
`municipalities` an array and under `count` the length of that array, which
is the length of the dataset; for the dataset of the source both are 4. -/
theorem api_count_eq_length (c : Ctx) (r : Request) :
    ∃ (o : JSON) (xs : List JSON),
      bodyJSON (municipalitiesAPIHandler c ResponseWriter.new r).body = [o] ∧
      o.get? "municipalities" = some (JSON.arr xs) ∧
      o.get? "count" = some (JSON.num xs.length) ∧
      xs.length = c.municipalities.length ∧
      (c.municipalities = municipalities →
        o.get? "count" = some (JSON.num 4) ∧ xs.length = 4) := by
  refine ⟨JSON.obj
      [ ("municipalities", JSON.arr (c.municipalities.map Municipality.toJSON)),
        ("count", JSON.num c.municipalities.length),
        ("timestamp", JSON.time c.now) ],
    c.municipalities.map Municipality.toJSON, ?_, ?_, ?_, ?_, ?_⟩
  · rfl
  · simp [JSON.get?, List.lookup]
  · simp [JSON.get?, List.lookup]
  · simp
  · intro h
    simp [JSON.get?, List.lookup, h, municipalities_length]

/-- Witness of C1 on the running process: the count and the array length of
the response to `GET /` are both 4. -/
theorem api_count_eq_length_witness :
    ∃ (o : JSON) (xs : List JSON),
      bodyJSON (municipalitiesAPIHandler (Ctx.boot workingTemplate ⟨0⟩)
        ResponseWriter.new getRoot).body = [o] ∧
      o.get? "municipalities" = some (JSON.arr xs) ∧
      o.get? "count" = some (JSON.num 4) ∧ xs.length = 4 := by
  obtain ⟨o, xs, h1, h2, _, _, h5⟩ :=
    api_count_eq_length (Ctx.boot workingTemplate ⟨0⟩) getRoot
  exact ⟨o, xs, h1, h2, (h5 rfl).1, (h5 rfl).2⟩

/-- The text `http.Error` prints is appended to the body with a line feed. -/
theorem httpError_body (w : ResponseWriter) (msg : String) (code : Nat) :
    (httpError w msg code).body = w.body ++ [Chunk.text (msg ++ "\n")] := by
  unfold httpError
  simp only [ResponseWriter.Write, ResponseWriter.emit_body]
  unfold ResponseWriter.WriteHeader
  cases hs : w.status <;> simp

/-- The status after `http.Error`: the given code, unless a status was
committed before. -/
theorem httpError_status (w : ResponseWriter) (msg : String) (code : Nat) :
    (httpError w msg code).status = some (w.status.getD code) := by
  unfold httpError
  simp only [ResponseWriter.Write, ResponseWriter.emit_status]
  unfold ResponseWriter.WriteHeader
  cases hs : w.status <;> simp

/-- The body of `homeHandler`, for any template set: the writes of executing
`index.html` on `homeData`, then the error line if the execution failed. -/
theorem homeHandler_body (c : Ctx) (w : ResponseWriter) (r : Request) :
    (homeHandler c w r).body =
      w.body ++ (c.templates.ExecuteTemplate "index.html" (homeData c)).writes.map Chunk.text ++
        match (c.templates.ExecuteTemplate "index.html" (homeData c)).err with
        | some e => [Chunk.text (e ++ "\n")]
        | none => [] := by
  simp only [homeHandler]
  split
  · next e he => simp [he, httpError_body, ResponseWriter.render_body]
  · next he => simp [he, ResponseWriter.render_body]

/-- C2: the array that `municipalitiesAPIHandler` encodes is the encoding,
record by record and in order, of the list `homeHandler` gives to the
template; a page that ranges over that list writes the records in the same
order; for the dataset of the source the order is Raleigh, Charlotte, Durham,
Wake County, and the first JSON entry has name Raleigh. -/
theorem api_order_eq_home_order (c : Ctx) (r1 r2 : Request) (f : Municipality → String) :
    ∃ (o : JSON) (xs : List Municipality),
      bodyJSON (municipalitiesAPIHandler c ResponseWriter.new r1).body = [o] ∧
      o.get? "municipalities" = some (JSON.arr (xs.map Municipality.toJSON)) ∧
      (homeData c).Municipalities = xs ∧
      (homeHandler { c with templates := rangeTemplate f } ResponseWriter.new r2).body =
        xs.map (fun m => Chunk.text (f m)) ∧
      (c.municipalities = municipalities →
        xs.map Municipality.Name = ["Raleigh", "Charlotte", "Durham", "Wake County"] ∧
        ∃ (first : JSON) (rest : List JSON),
          xs.map Municipality.toJSON = first :: rest ∧
          first.get? "name" = some (JSON.str "Raleigh")) := by
  refine ⟨JSON.obj
      [ ("municipalities", JSON.arr (c.municipalities.map Municipality.toJSON)),
        ("count", JSON.num c.municipalities.length),
        ("timestamp", JSON.time c.now) ],
    c.municipalities, rfl, ?_, rfl, ?_, ?_⟩
  · simp [JSON.get?, List.lookup]
  · rw [homeHandler_body]
    simp [rangeTemplate, homeData, ResponseWriter.new]
  · intro h
    rw [h]
    exact ⟨rfl, _, _, rfl, rfl⟩

/-- Witness of C2 on the running process, with a page that writes the name of
each record. -/
theorem api_order_eq_home_order_witness :
    ∃ (o : JSON) (first : JSON) (rest : List JSON),
      bodyJSON (municipalitiesAPIHandler (Ctx.boot workingTemplate ⟨0⟩)
        ResponseWriter.new getRoot).body = [o] ∧
      o.get? "municipalities" = some (JSON.arr (first :: rest)) ∧
      first.get? "name" = some (JSON.str "Raleigh") ∧
      (homeHandler (Ctx.boot (rangeTemplate Municipality.Name) ⟨0⟩)
        ResponseWriter.new getRoot).body =
        [Chunk.text "Raleigh", Chunk.text "Charlotte", Chunk.text "Durham",
          Chunk.text "Wake County"] := by
  obtain ⟨o, xs, h1, h2, h3, h4, h5⟩ :=
    api_order_eq_home_order (Ctx.boot workingTemplate ⟨0⟩) getRoot getRoot Municipality.Name
  obtain ⟨_, first, rest, h6, h7⟩ := h5 rfl
  refine ⟨o, first, rest, h1, ?_, h7, ?_⟩
  · rw [h2, h6]
  · have hx : xs = municipalities := h3.symm
    rw [hx] at h4
    exact h4

/-! ## The page handler -/

/-- C7: the data `homeHandler` gives to the template has the title
`NC FTTX Permitting Portal`, the dataset as its list, and a `TotalCount` equal
to the number of records of that list; whatever the template set, the page is
the execution of `index.html` on that data. -/
theorem homeHandler_count_eq_length (c : Ctx) (w : ResponseWriter) (r : Request) :
    ∃ d : HomeData,
      d.Title = "NC FTTX Permitting Portal" ∧
      d.Municipalities = c.municipalities ∧
      d.TotalCount = (d.Municipalities.length : Int) ∧
      ∀ t : Template,
        (homeHandler { c with templates := t } w r).body =
          w.body ++ (t.ExecuteTemplate "index.html" d).writes.map Chunk.text ++
            match (t.ExecuteTemplate "index.html" d).err with
            | some e => [Chunk.text (e ++ "\n")]
            | none => [] := by
  refine ⟨homeData c, rfl, rfl, rfl, ?_⟩
  intro t
  exact homeHandler_body { c with templates := t } w r

/-! ## Health -/

/-- C5: whatever the package variables, the clock and the request are when
`healthHandler` runs, the object it encodes has status `healthy`, service
`nc-fttx-portal`, version `1.0.0` and a timestamp that is the reading of the
clock; apart from the timestamp the response is the same in every context and
for every request. -/
theorem health_fixed_fields (c : Ctx) (r : Request) :
    ∃ o : JSON,
      bodyJSON (healthHandler c ResponseWriter.new r).body = [o] ∧
      o.get? "status" = some (JSON.str "healthy") ∧
      o.get? "service" = some (JSON.str "nc-fttx-portal") ∧
      o.get? "version" = some (JSON.str "1.0.0") ∧
      o.get? "timestamp" = some (JSON.time c.now) ∧
      (healthHandler c ResponseWriter.new r).status = some 200 ∧
      (healthHandler c ResponseWriter.new r).sent.Get "Content-Type" = "application/json" ∧
      ∀ (c2 : Ctx) (r2 : Request),
        (healthHandler c2 ResponseWriter.new r2).eraseKey "timestamp" =
          (healthHandler c ResponseWriter.new r).eraseKey "timestamp" := by
  refine ⟨JSON.obj
      [ ("status", JSON.str "healthy"),
        ("service", JSON.str "nc-fttx-portal"),
        ("version", JSON.str "1.0.0"),
        ("timestamp", JSON.time c.now) ], rfl, ?_, ?_, ?_, ?_, rfl, ?_, ?_⟩
  · simp [JSON.get?, List.lookup]
  · simp [JSON.get?, List.lookup]
  · simp [JSON.get?, List.lookup]
  · simp [JSON.get?, List.lookup]
  · simp [healthHandler, ResponseWriter.Encode, ResponseWriter.emit, ResponseWriter.WriteHeader,
      ResponseWriter.SetHeader, ResponseWriter.new, Header.Set, Header.Del, Header.Get,
      List.lookup]
  · intro c2 r2
    simp [healthHandler, ResponseWriter.eraseKey, ResponseWriter.Encode, ResponseWriter.emit,
      ResponseWriter.WriteHeader, ResponseWriter.SetHeader, ResponseWriter.new, Chunk.erase,
      JSON.erase]

/-! ## Metrics -/

/-- C4: the third line `metricsHandler` writes, the sample of the gauge
`nc_fttx_municipalities_total`, carries the decimal rendering of the length of
the dataset; for the dataset of the source the line reads
`nc_fttx_municipalities_total 4`. -/
theorem metrics_gauge_eq_length (c : Ctx) (r : Request) :
    (metricsHandler c ResponseWriter.new r).body[2]? =
        some (Chunk.text
          ("nc_fttx_municipalities_total " ++ Nat.repr c.municipalities.length ++ "\n")) ∧
      (c.municipalities = municipalities →
        (metricsHandler c ResponseWriter.new r).body[2]? =
          some (Chunk.text "nc_fttx_municipalities_total 4\n")) := by
  refine ⟨rfl, ?_⟩
  intro h
  simp only [metricsHandler, h]
  rfl

/-- Witness of C4 on the running process. -/
theorem metrics_gauge_eq_length_witness :
    (metricsHandler (Ctx.boot workingTemplate ⟨0⟩) ResponseWriter.new getRoot).body[2]? =
      some (Chunk.text "nc_fttx_municipalities_total 4\n") :=
  (metrics_gauge_eq_length (Ctx.boot workingTemplate ⟨0⟩) getRoot).2 rfl

/-! ## Port selection -/

/-- C6: the port is `8080` when `PORT` is unset or empty, the value of `PORT`
when that value is not empty, and the listen address is a colon followed by
the port. -/
theorem port_selected (env : Env) :
    ((env "PORT" = none ∨ env "PORT" = some "") → port env = "8080") ∧
      (∀ v : String, env "PORT" = some v → v ≠ "" → port env = v) ∧
      listenAddr env = ":" ++ port env := by
  refine ⟨?_, ?_, rfl⟩
  · intro h
    rcases h with h | h <;> simp [port, Getenv, h]
  · intro v h hv
    simp [port, Getenv, h, hv]

/-- Witness of C6: with no variable set the address is `:8080`, with `PORT`
set to `3000` it is `:3000`. -/
theorem port_selected_witness :
    port envEmpty = "8080" ∧ listenAddr envEmpty = ":8080" ∧
      port envPort3000 = "3000" ∧ listenAddr envPort3000 = ":3000" := by
  have h1 : port envEmpty = "8080" := (port_selected envEmpty).1 (Or.inl rfl)
  have h2 : port envPort3000 = "3000" :=
    (port_selected envPort3000).2.1 "3000" (by decide) (by decide)
  refine ⟨h1, ?_, h2, ?_⟩
  · rw [(port_selected envEmpty).2.2, h1]
    decide
  · rw [(port_selected envPort3000).2.2, h2]
    decide

set_option maxRecDepth 100000

/-- C10: `metricsHandler` answers with content type `text/plain` and writes
exactly two metrics in the exposition format, the gauge
`nc_fttx_municipalities_total` and then the counter
`nc_fttx_http_requests_total` with one sample for method GET and endpoint `/`;
for the dataset of the source the text is six lines. -/
theorem metrics_exposition (c : Ctx) (r : Request) :
    (metricsHandler c ResponseWriter.new r).sent.Get "Content-Type" = "text/plain" ∧
      (metricsHandler c ResponseWriter.new r).body =
        (metricLines "nc_fttx_municipalities_total" "Total number of municipalities" "gauge"
            "" (Nat.repr c.municipalities.length) ++
          metricLines "nc_fttx_http_requests_total" "Total HTTP requests" "counter"
            "\x7bmethod=\"GET\",endpoint=\"/\"\x7d" "1").map Chunk.text ∧
      (c.municipalities = municipalities →
        linesOf (bodyText (metricsHandler c ResponseWriter.new r).body) =
          [ "# HELP nc_fttx_municipalities_total Total number of municipalities",
            "# TYPE nc_fttx_municipalities_total gauge",
            "nc_fttx_municipalities_total 4",
            "# HELP nc_fttx_http_requests_total Total HTTP requests",
            "# TYPE nc_fttx_http_requests_total counter",
            "nc_fttx_http_requests_total\x7bmethod=\"GET\",endpoint=\"/\"\x7d 1" ]) := by
  refine ⟨?_, ?_, ?_⟩
  · simp [metricsHandler, ResponseWriter.Write, ResponseWriter.emit, ResponseWriter.WriteHeader,
      ResponseWriter.SetHeader, ResponseWriter.new, Header.Set, Header.Del, Header.Get,
      List.lookup]
  · have h : "nc_fttx_municipalities_total" ++ "" ++ " " = "nc_fttx_municipalities_total " := by
      decide
    simp only [metricLines, h]
    rfl
  · intro h
    simp only [metricsHandler, h]
    rfl

/-- Witness of C10 on the running process: the six lines of the response. -/
theorem metrics_exposition_witness :
    linesOf (bodyText (metricsHandler (Ctx.boot workingTemplate ⟨0⟩)
        ResponseWriter.new getRoot).body) =
      [ "# HELP nc_fttx_municipalities_total Total number of municipalities",
        "# TYPE nc_fttx_municipalities_total gauge",
        "nc_fttx_municipalities_total 4",
        "# HELP nc_fttx_http_requests_total Total HTTP requests",
        "# TYPE nc_fttx_http_requests_total counter",
        "nc_fttx_http_requests_total\x7bmethod=\"GET\",endpoint=\"/\"\x7d 1" ] :=
  (metrics_exposition (Ctx.boot workingTemplate ⟨0⟩) getRoot).2.2 rfl

/-! ## Failure of the template -/

/-- C8 as stated fails: when the execution of the template fails at once with
the error `boom`, the status is 500 but the body is `boom` followed by a line
feed, not the text of the error alone. -/
theorem homeHandler_error_body_counterexample :
    ((Ctx.boot failingTemplate ⟨0⟩).templates.ExecuteTemplate "index.html"
        (homeData (Ctx.boot failingTemplate ⟨0⟩))).err = some "boom" ∧
      bodyText (homeHandler (Ctx.boot failingTemplate ⟨0⟩) ResponseWriter.new getRoot).body =
        "boom\n" ∧
      ¬ ((homeHandler (Ctx.boot failingTemplate ⟨0⟩) ResponseWriter.new getRoot).status =
            some 500 ∧
          bodyText (homeHandler (Ctx.boot failingTemplate ⟨0⟩) ResponseWriter.new getRoot).body =
            "boom") := by
  refine ⟨rfl, by decide, ?_⟩
  intro h
  have hb : bodyText (homeHandler (Ctx.boot failingTemplate ⟨0⟩) ResponseWriter.new
      getRoot).body = "boom\n" := by decide
  rw [hb] at h
  exact absurd h.2 (by decide)

/-- C8, amended: when the execution of the template fails before it has
written anything, the response has status 500, content type
`text/plain; charset=utf-8`, and a body that is the text of the error followed
by a line feed; when the execution succeeds, the response is what the template
wrote and no status other than 200 is committed. -/
theorem homeHandler_error_status (c : Ctx) (r : Request) :
    (∀ e : String,
        (c.templates.ExecuteTemplate "index.html" (homeData c)).writes = [] →
        (c.templates.ExecuteTemplate "index.html" (homeData c)).err = some e →
        (homeHandler c ResponseWriter.new r).status = some StatusInternalServerError ∧
          (homeHandler c ResponseWriter.new r).body = [Chunk.text (e ++ "\n")] ∧
          (homeHandler c ResponseWriter.new r).sent.Get "Content-Type" =
            "text/plain; charset=utf-8") ∧
      ((c.templates.ExecuteTemplate "index.html" (homeData c)).err = none →
        (homeHandler c ResponseWriter.new r).body =
            (c.templates.ExecuteTemplate "index.html" (homeData c)).writes.map Chunk.text ∧
          (homeHandler c ResponseWriter.new r).status ≠ some StatusInternalServerError ∧
          ((homeHandler c ResponseWriter.new r).status = none ∨
            (homeHandler c ResponseWriter.new r).status = some 200)) := by
  constructor
  · intro e hw he
    have hres : c.templates.ExecuteTemplate "index.html" (homeData c) =
        { writes := [], err := some e } := by
      cases hx : c.templates.ExecuteTemplate "index.html" (homeData c) with
      | mk ws er =>
        rw [hx] at hw he
        simp only at hw he
        rw [hw, he]
    have hh : homeHandler c ResponseWriter.new r =
        httpError ResponseWriter.new e StatusInternalServerError := by
      simp only [homeHandler, hres]
      rfl
    rw [hh]
    refine ⟨rfl, rfl, ?_⟩
    simp [httpError, ResponseWriter.Write, ResponseWriter.emit, ResponseWriter.WriteHeader,
      ResponseWriter.new, Header.Set, Header.Del, Header.Get, List.lookup]
  · intro he
    have hh : homeHandler c ResponseWriter.new r =
        ResponseWriter.new.render (c.templates.ExecuteTemplate "index.html" (homeData c)) := by
      simp only [homeHandler, he]
    rw [hh, ResponseWriter.render_body, ResponseWriter.render_status]
    refine ⟨by simp [ResponseWriter.new], ?_, ?_⟩
    · simp only [ResponseWriter.new]
      split_ifs <;> simp [StatusInternalServerError]
    · simp only [ResponseWriter.new]
      split_ifs <;> simp

/-- Witness of C8, amended: a template set that fails at once with `boom`
gives status 500 and the body `boom` with a line feed; one that succeeds gives
its output and status 200. -/
theorem homeHandler_error_status_witness :
    ((homeHandler (Ctx.boot failingTemplate ⟨0⟩) ResponseWriter.new getRoot).status = some 500 ∧
        (homeHandler (Ctx.boot failingTemplate ⟨0⟩) ResponseWriter.new getRoot).body =
          [Chunk.text "boom\n"]) ∧
      ((homeHandler (Ctx.boot workingTemplate ⟨0⟩) ResponseWriter.new getRoot).body =
          [Chunk.text "<h1>NC FTTX Permitting Portal</h1>"] ∧
        (homeHandler (Ctx.boot workingTemplate ⟨0⟩) ResponseWriter.new getRoot).status ≠
          some 500) := by
  have h1 := (homeHandler_error_status (Ctx.boot failingTemplate ⟨0⟩) getRoot).1 "boom" rfl rfl
  have h2 := (homeHandler_error_status (Ctx.boot workingTemplate ⟨0⟩) getRoot).2 rfl
  exact ⟨⟨h1.1, h1.2.1⟩, ⟨h2.1, h2.2.1⟩⟩

/-- A template execution that fails after it has written output leaves status
200 committed: the status of `http.Error` comes too late and its text follows
the output already written. -/
theorem homeHandler_late_failure :
    (homeHandler (Ctx.boot lateFailingTemplate ⟨0⟩) ResponseWriter.new getRoot).status =
        some 200 ∧
      bodyText (homeHandler (Ctx.boot lateFailingTemplate ⟨0⟩) ResponseWriter.new getRoot).body =
        "<h1>boom\n" :=
  ⟨rfl, by decide⟩

/-! ## Independence from the request -/

/-- C9: no handler reads its request.  For the same package variables and any
two requests, `homeHandler` and `metricsHandler` leave the same response
whatever the clock reads; `municipalitiesAPIHandler` and `healthHandler` leave
the same response when the clock reads the same, and responses that differ at
most under the key `timestamp` when it does not. -/
theorem handlers_ignore_request (ms : List Municipality) (t : Template) (now1 now2 : Time)
    (w : ResponseWriter) (r1 r2 : Request) :
    homeHandler ⟨ms, t, now1⟩ w r1 = homeHandler ⟨ms, t, now2⟩ w r2 ∧
      metricsHandler ⟨ms, t, now1⟩ w r1 = metricsHandler ⟨ms, t, now2⟩ w r2 ∧
      municipalitiesAPIHandler ⟨ms, t, now1⟩ w r1 = municipalitiesAPIHandler ⟨ms, t, now1⟩ w r2 ∧
      healthHandler ⟨ms, t, now1⟩ w r1 = healthHandler ⟨ms, t, now1⟩ w r2 ∧
      (municipalitiesAPIHandler ⟨ms, t, now1⟩ w r1).eraseKey "timestamp" =
        (municipalitiesAPIHandler ⟨ms, t, now2⟩ w r2).eraseKey "timestamp" ∧
      (healthHandler ⟨ms, t, now1⟩ w r1).eraseKey "timestamp" =
        (healthHandler ⟨ms, t, now2⟩ w r2).eraseKey "timestamp" := by
  refine ⟨rfl, rfl, rfl, rfl, ?_, ?_⟩
  · simp [municipalitiesAPIHandler, ResponseWriter.eraseKey, ResponseWriter.Encode,
      ResponseWriter.emit, ResponseWriter.WriteHeader, ResponseWriter.SetHeader, Chunk.erase,
      JSON.erase]
  · simp [healthHandler, ResponseWriter.eraseKey, ResponseWriter.Encode,
      ResponseWriter.emit, ResponseWriter.WriteHeader, ResponseWriter.SetHeader, Chunk.erase,
      JSON.erase]

end NCFttx
